import Mathlib

/-!
Verification of the Campus Exchange backend against its specification.

The development shallowly embeds two areas of the code base:

* the Alembic migration `b8f4c2a1d9e3_change_user_id_to_email_prefix.py`
  (together with the two cascade-delete migrations `254ce896d541` and
  `491b07444172`), modelled both as a data transformation on table rows
  and as the literal sequence of schema operations it executes;
* the listing endpoints of `app/api/v1/listings.py`
  (`create_listing`, `update_listing`, `patch_status`, `delete_listing`),
  modelled as pure functions from a request and a database snapshot to an
  HTTP outcome.
-/

/-! ## SQL and Python string helpers -/

/-- Characters removed by Python `str.strip()` with no argument
(ASCII whitespace, as relevant to the strings this code handles). -/
def pyWhitespace (c : Char) : Bool :=
  c = ' ' || c = '\t' || c = '\n' || c = '\r' || c = '\x0b' || c = '\x0c'

/-- Model of Python `value.strip()`: drop leading and trailing whitespace. -/
def pyStrip (s : String) : String :=
  String.mk (((s.data.dropWhile pyWhitespace).reverse.dropWhile pyWhitespace).reverse)

/-- Characters of `cs` strictly before the first occurrence of a character
value equal to the at sign. -/
def takeBeforeAt : List Char → List Char
  | [] => []
  | c :: cs => if c = '@' then [] else c :: takeBeforeAt cs

/-- Model of PostgreSQL `SPLIT_PART(s, ..., 1)` splitting at the at sign:
the part of `s` before its first at sign (all of `s` when it has none). -/
def splitPart1 (s : String) : String := String.mk (takeBeforeAt s.data)

/-- Model of PostgreSQL `to_tsvector(config, text)`: the builtin is external
to this repository, so it is modelled as an abstract value that records both
arguments; distinct search texts give distinct vectors, which matches the
builtin on the concrete texts used in this development. -/
def to_tsvector (config text : String) : String := config ++ ":" ++ text

/-! ## Data model of the re-keying migration (`b8f4c2a1d9e3`, data part)

A `users` row before the migration, a row while the temporary `new_id`
column exists, and a row after the swap. -/

structure UserRow where
  id : Int
  email : String
deriving DecidableEq, Repr

structure UserRowTmp where
  id : Int
  email : String
  new_id : Option String
deriving DecidableEq, Repr

structure NewUserRow where
  id : String
  email : String
deriving DecidableEq, Repr

/-- `op.add_column('users', sa.Column('new_id', ...))`: every existing row
gains a NULL `new_id`. -/
def usersAddNewIdColumn (us : List UserRow) : List UserRowTmp :=
  us.map (fun u => UserRowTmp.mk u.id u.email none)

/-- `UPDATE users SET new_id = SPLIT_PART(email, '@', 1) WHERE new_id IS NULL`. -/
def usersBackfillNewId (rs : List UserRowTmp) : List UserRowTmp :=
  rs.map (fun r =>
    if r.new_id.isNone then UserRowTmp.mk r.id r.email (some (splitPart1 r.email)) else r)

/-- `op.drop_column('users', 'id')` followed by renaming `new_id` to `id`:
the surviving key column is the backfilled string (the `getD` default is
never reached after the backfill, which fills every row). -/
def usersSwapIdColumn (rs : List UserRowTmp) : List NewUserRow :=
  rs.map (fun r => NewUserRow.mk (r.new_id.getD "") r.email)

/-- The data effect of `upgrade()` on the `users` table, step by step as the
migration performs it. -/
def upgradeUsers (us : List UserRow) : List NewUserRow :=
  usersSwapIdColumn (usersBackfillNewId (usersAddNewIdColumn us))

/-- The correlated subquery
`(SELECT SPLIT_PART(email, '@', 1) FROM users WHERE users.id = t.c)`. -/
def lookupNewId (us : List UserRow) (i : Int) : Option String :=
  (us.find? (fun u => u.id == i)).map (fun u => splitPart1 u.email)

/-- The backfill of one foreign-key cell.  For the three nullable columns the
migration adds `WHERE c IS NOT NULL` (`onlyNonNull = true`), leaving NULL
cells untouched; for the others it updates unconditionally, and on a NULL
cell the subquery matches no user row, so the new cell is NULL either way. -/
def backfillFkCell (us : List UserRow) (onlyNonNull : Bool) (v : Option Int) : Option String :=
  if onlyNonNull then
    match v with
    | none => none
    | some i => lookupNewId us i
  else
    match v with
    | none => none
    | some i => lookupNewId us i

/-- The data effect of `upgrade()` on one referencing column. -/
def upgradeFkColumn (us : List UserRow) (onlyNonNull : Bool)
    (col : List (Option Int)) : List (Option String) :=
  col.map (backfillFkCell us onlyNonNull)

/-! ## Schema-operation model of the migrations

One constructor per kind of Alembic / SQL statement the three migration
scripts execute. -/

inductive ColTy
  | intTy
  | strTy
deriving DecidableEq, Repr

inductive MigOp
  | addColumn (table col : String) (ty : ColTy) (nullable : Bool)
  | backfillUsersNewId
  | backfillFk (table col : String) (onlyNonNull : Bool)
  | alterNullable (table col : String) (nullable : Bool)
  | createUnique (name table col : String)
  | dropFkConstraint (name table : String)
  | dropPkConstraint (name table : String)
  | dropColumn (table col : String)
  | renameColumn (table oldName newName : String)
  | dropIndex (name table : String)
  | createPk (name table col : String)
  | createIndex (name table col : String) (unique : Bool)
  | createFk (name table col refTable refCol : String) (cascade : Bool)
  | createSequence (name : String)
  | backfillUsersRenumber
deriving DecidableEq, Repr

/-- The `tables_with_user_fks` list of the migration, verbatim. -/
def tables_with_user_fks : List (String × String) :=
  [("blocked_users", "user_id"),
   ("blocked_users", "blocked_by"),
   ("listings", "owner_id"),
   ("notifications", "user_id"),
   ("verifications", "user_id"),
   ("chat_messages", "sender_id"),
   ("chat_messages", "receiver_id"),
   ("chat_rooms", "participant1_id"),
   ("chat_rooms", "participant2_id"),
   ("favorites", "user_id"),
   ("messages", "sender_id"),
   ("messages", "receiver_id"),
   ("reports", "reporter_id"),
   ("reports", "reported_user_id"),
   ("reports", "reviewed_by"),
   ("message_reactions", "user_id"),
   ("admin_activity_log", "admin_id")]

/-- The columns the migration treats as nullable
(`if column_name in ['reported_user_id', 'reviewed_by', 'admin_id']`). -/
def nullableUserCols : List String := ["reported_user_id", "reviewed_by", "admin_id"]

/-- PostgreSQL's conventional foreign-key constraint name, the pattern every
constraint in these migrations follows. -/
def fkName (table col : String) : String := table ++ "_" ++ col ++ "_fkey"

/-- The operations `upgrade()` of `b8f4c2a1d9e3` performs, in source order.
The four loops over `tables_with_user_fks` are transcribed as maps over the
same list; the seventeen `drop_constraint` and seventeen
`create_foreign_key` statements are transcribed literally. -/
def upgradeOps : List MigOp :=
  [MigOp.addColumn "users" "new_id" ColTy.strTy true,
   MigOp.backfillUsersNewId,
   MigOp.alterNullable "users" "new_id" false,
   MigOp.createUnique "uq_users_new_id" "users" "new_id"]
  ++ tables_with_user_fks.map (fun p =>
       MigOp.addColumn p.1 ("new_" ++ p.2) ColTy.strTy true)
  ++ tables_with_user_fks.map (fun p =>
       MigOp.backfillFk p.1 p.2 (nullableUserCols.contains p.2))
  ++ [MigOp.dropFkConstraint "blocked_users_user_id_fkey" "blocked_users",
      MigOp.dropFkConstraint "blocked_users_blocked_by_fkey" "blocked_users",
      MigOp.dropFkConstraint "listings_owner_id_fkey" "listings",
      MigOp.dropFkConstraint "notifications_user_id_fkey" "notifications",
      MigOp.dropFkConstraint "verifications_user_id_fkey" "verifications",
      MigOp.dropFkConstraint "chat_messages_sender_id_fkey" "chat_messages",
      MigOp.dropFkConstraint "chat_messages_receiver_id_fkey" "chat_messages",
      MigOp.dropFkConstraint "chat_rooms_participant1_id_fkey" "chat_rooms",
      MigOp.dropFkConstraint "chat_rooms_participant2_id_fkey" "chat_rooms",
      MigOp.dropFkConstraint "favorites_user_id_fkey" "favorites",
      MigOp.dropFkConstraint "messages_sender_id_fkey" "messages",
      MigOp.dropFkConstraint "messages_receiver_id_fkey" "messages",
      MigOp.dropFkConstraint "reports_reporter_id_fkey" "reports",
      MigOp.dropFkConstraint "reports_reported_user_id_fkey" "reports",
      MigOp.dropFkConstraint "reports_reviewed_by_fkey" "reports",
      MigOp.dropFkConstraint "message_reactions_user_id_fkey" "message_reactions",
      MigOp.dropFkConstraint "admin_activity_log_admin_id_fkey" "admin_activity_log"]
  ++ tables_with_user_fks.flatMap (fun p =>
       [MigOp.dropColumn p.1 p.2,
        MigOp.renameColumn p.1 ("new_" ++ p.2) p.2]
       ++ (if nullableUserCols.contains p.2 then []
           else [MigOp.alterNullable p.1 p.2 false]))
  ++ [MigOp.dropPkConstraint "users_pkey" "users",
      MigOp.dropIndex "ix_users_id" "users",
      MigOp.dropColumn "users" "id",
      MigOp.renameColumn "users" "new_id" "id",
      MigOp.createPk "users_pkey" "users" "id",
      MigOp.createIndex "ix_users_id" "users" "id" true]
  ++ [MigOp.createFk "blocked_users_user_id_fkey" "blocked_users" "user_id" "users" "id" true,
      MigOp.createFk "blocked_users_blocked_by_fkey" "blocked_users" "blocked_by" "users" "id" true,
      MigOp.createFk "listings_owner_id_fkey" "listings" "owner_id" "users" "id" false,
      MigOp.createFk "notifications_user_id_fkey" "notifications" "user_id" "users" "id" false,
      MigOp.createFk "verifications_user_id_fkey" "verifications" "user_id" "users" "id" false,
      MigOp.createFk "chat_messages_sender_id_fkey" "chat_messages" "sender_id" "users" "id" false,
      MigOp.createFk "chat_messages_receiver_id_fkey" "chat_messages" "receiver_id" "users" "id" false,
      MigOp.createFk "chat_rooms_participant1_id_fkey" "chat_rooms" "participant1_id" "users" "id" false,
      MigOp.createFk "chat_rooms_participant2_id_fkey" "chat_rooms" "participant2_id" "users" "id" false,
      MigOp.createFk "favorites_user_id_fkey" "favorites" "user_id" "users" "id" false,
      MigOp.createFk "messages_sender_id_fkey" "messages" "sender_id" "users" "id" false,
      MigOp.createFk "messages_receiver_id_fkey" "messages" "receiver_id" "users" "id" false,
      MigOp.createFk "reports_reporter_id_fkey" "reports" "reporter_id" "users" "id" false,
      MigOp.createFk "reports_reported_user_id_fkey" "reports" "reported_user_id" "users" "id" false,
      MigOp.createFk "reports_reviewed_by_fkey" "reports" "reviewed_by" "users" "id" false,
      MigOp.createFk "message_reactions_user_id_fkey" "message_reactions" "user_id" "users" "id" true,
      MigOp.createFk "admin_activity_log_admin_id_fkey" "admin_activity_log" "admin_id" "users" "id" false]

/-- The operations `downgrade()` of `b8f4c2a1d9e3` performs, in source order.
`backfillUsersRenumber` stands for the loop assigning fresh integers 1..n in
order of the string ids. -/
def downgradeOps : List MigOp :=
  [MigOp.addColumn "users" "new_id" ColTy.intTy true,
   MigOp.createSequence "users_id_seq",
   MigOp.backfillUsersRenumber,
   MigOp.alterNullable "users" "new_id" false,
   MigOp.dropPkConstraint "users_pkey" "users",
   MigOp.dropIndex "ix_users_id" "users",
   MigOp.dropColumn "users" "id",
   MigOp.renameColumn "users" "new_id" "id",
   MigOp.createPk "users_pkey" "users" "id",
   MigOp.createIndex "ix_users_id" "users" "id" false]

/-- `upgrade()` of `254ce896d541_enable_cascade_delete_on_notifications`.
The replacement is created with `name=None`; PostgreSQL's default naming
yields `notifications_user_id_fkey`, the name `b8f4c2a1d9e3` later drops. -/
def cascadeNotificationsOps : List MigOp :=
  [MigOp.dropFkConstraint "notifications_user_id_fkey" "notifications",
   MigOp.createFk "notifications_user_id_fkey" "notifications" "user_id" "users" "id" true]

/-- `upgrade()` of `491b07444172_enable_cascade_delete_on_verifications`. -/
def cascadeVerificationsOps : List MigOp :=
  [MigOp.dropFkConstraint "verifications_user_id_fkey" "verifications",
   MigOp.createFk "verifications_user_id_fkey" "verifications" "user_id" "users" "id" true]

/-! ## Interpreting the schema operations on the foreign-key constraint set -/

structure FkInfo where
  table : String
  col : String
  refTable : String
  refCol : String
  cascade : Bool
deriving DecidableEq, Repr

/-- Effect of one operation on the named set of foreign-key constraints. -/
def applyFkOp (fks : List (String × FkInfo)) : MigOp → List (String × FkInfo)
  | MigOp.dropFkConstraint n _ => fks.filter (fun p => p.1 ≠ n)
  | MigOp.createFk n t c rt rc casc => (n, FkInfo.mk t c rt rc casc) :: fks
  | _ => fks

def runFks (init : List (String × FkInfo)) (ops : List MigOp) : List (String × FkInfo) :=
  ops.foldl applyFkOp init

/-- The two constraints as they stood before the cascade-delete migrations,
in the exact form the `downgrade()` of each of those migrations recreates
them (plain foreign keys with no `ON DELETE` action). -/
def fksBeforeCascadeMigs : List (String × FkInfo) :=
  [("notifications_user_id_fkey", FkInfo.mk "notifications" "user_id" "users" "id" false),
   ("verifications_user_id_fkey", FkInfo.mk "verifications" "user_id" "users" "id" false)]

/-- Constraint state at revision `325f6e4ea397`, immediately before the
re-keying migration, restricted to the two constraints whose history is in
the repository. -/
def fksBeforeRekey : List (String × FkInfo) :=
  runFks fksBeforeCascadeMigs (cascadeNotificationsOps ++ cascadeVerificationsOps)

/-- Constraint state after `upgrade()` of the re-keying migration. -/
def fksAfterRekey : List (String × FkInfo) :=
  runFks fksBeforeRekey upgradeOps

/-! ## Projections of the operation list used by the coverage and ordering
claims -/

def isCreateFkOp : MigOp → Bool
  | MigOp.createFk .. => true
  | _ => false

def isDropFkNamed (n : String) : MigOp → Bool
  | MigOp.dropFkConstraint m _ => m == n
  | _ => false

def isCreateFkNamed (n : String) : MigOp → Bool
  | MigOp.createFk m _ _ _ _ _ => m == n
  | _ => false

/-- The `(table, column)` pairs of the foreign keys `upgrade()` recreates. -/
def createdFkPairs : List (String × String) :=
  upgradeOps.filterMap (fun op =>
    match op with
    | MigOp.createFk _ t c _ _ _ => some (t, c)
    | _ => none)

/-- The names of the foreign keys `upgrade()` recreates. -/
def createdFkNames : List String :=
  upgradeOps.filterMap (fun op =>
    match op with
    | MigOp.createFk n _ _ _ _ _ => some n
    | _ => none)

/-- The referenced `(table, column)` of each foreign key `upgrade()`
recreates. -/
def createdFkTargets : List (String × String) :=
  upgradeOps.filterMap (fun op =>
    match op with
    | MigOp.createFk _ _ _ rt rc _ => some (rt, rc)
    | _ => none)

/-- The `(name, table)` pairs of the foreign keys `upgrade()` drops. -/
def droppedFkNameTables : List (String × String) :=
  upgradeOps.filterMap (fun op =>
    match op with
    | MigOp.dropFkConstraint n t => some (n, t)
    | _ => none)

/-- Index in `upgradeOps` of the first occurrence of `op`. -/
def opIndex (op : MigOp) : Nat :=
  upgradeOps.findIdx (fun o => decide (o = op))

/-- Index in `upgradeOps` of the drop of the constraint named `n`. -/
def dropIdxOfName (n : String) : Nat :=
  upgradeOps.findIdx (isDropFkNamed n)

/-- Index in `upgradeOps` of the recreation of the constraint named `n`. -/
def createIdxOfName (n : String) : Nat :=
  upgradeOps.findIdx (isCreateFkNamed n)

/-- Index in `upgradeOps` of the backfill of the derived column of the
referencing pair `p`. -/
def backfillIdxOfPair (p : String × String) : Nat :=
  opIndex (MigOp.backfillFk p.1 p.2 (nullableUserCols.contains p.2))

/-- The tables an operation touches (none for `CREATE SEQUENCE`). -/
def opTables : MigOp → List String
  | MigOp.addColumn t _ _ _ => [t]
  | MigOp.backfillUsersNewId => ["users"]
  | MigOp.backfillFk t _ _ => [t]
  | MigOp.alterNullable t _ _ => [t]
  | MigOp.createUnique _ t _ => [t]
  | MigOp.dropFkConstraint _ t => [t]
  | MigOp.dropPkConstraint _ t => [t]
  | MigOp.dropColumn t _ => [t]
  | MigOp.renameColumn t _ _ => [t]
  | MigOp.dropIndex _ t => [t]
  | MigOp.createPk _ t _ => [t]
  | MigOp.createIndex _ t _ _ => [t]
  | MigOp.createFk _ t _ rt _ _ => [t, rt]
  | MigOp.createSequence _ => []
  | MigOp.backfillUsersRenumber => ["users"]

/-- Equality of endpoint outcomes is decidable, so witnesses can evaluate
concrete requests. -/
instance {e a : Type} [DecidableEq e] [DecidableEq a] : DecidableEq (Except e a) := fun x y =>
  match x, y with
  | Except.error v, Except.error w =>
    if h : v = w then isTrue (by rw [h]) else isFalse (fun hEq => by cases hEq; exact h rfl)
  | Except.ok v, Except.ok w =>
    if h : v = w then isTrue (by rw [h]) else isFalse (fun hEq => by cases hEq; exact h rfl)
  | Except.error _, Except.ok _ => isFalse (fun hEq => by cases hEq)
  | Except.ok _, Except.error _ => isFalse (fun hEq => by cases hEq)

/-! ## Data model of the listing endpoints (`app/api/v1/listings.py`)

A listing row with the columns these endpoints read or write.  The
`search_vector` column is the derived full-text index set at creation and
recomputed on text updates. -/

structure ListingRec where
  id : Nat
  owner_id : String
  title : String
  description : String
  category : String
  price : Rat
  images : List String
  status : String
  search_vector : String
deriving DecidableEq, Repr

/-- The fields of the current user the endpoints consult. -/
structure UserRec where
  id : String
  is_verified : Bool
deriving DecidableEq, Repr

/-- An `HTTPException(status_code, detail)`. -/
structure HTTPError where
  status : Nat
  detail : String
deriving DecidableEq, Repr

/-- A call to `NotificationService` made by an endpoint. -/
inductive NotificationEvent
  | listing_created (listingId : Nat) (userId : String)
  | listing_updated (listingId : Nat) (userId : String)
deriving DecidableEq, Repr

/-- An uploaded file, identified by the fields the endpoints use. -/
structure UploadFileRec where
  filename : String
deriving DecidableEq, Repr

/-- `settings.STORAGE_BACKEND` is declared
`Literal["LOCAL", "S3"]` in `app/core/config.py`, so its values are exactly
these two. -/
inductive StorageBackend
  | LOCAL
  | S3
deriving DecidableEq, Repr

/-- The statuses `patch_status` accepts, the set literal of the source. -/
def listingStatuses : List String := ["ACTIVE", "SOLD", "ARCHIVED"]

/-- The URL list built by the storage branches of `create_listing`;
`save_upload` and the S3 upload plus `public_url_for_key` are off-the-shelf
collaborators, passed in as functions from a file to its public URL.
`none` is the `raise HTTPException(500, ...)` branch. -/
def uploadUrls (backend : StorageBackend) (save_upload s3_upload : UploadFileRec → String)
    (images : Option (List UploadFileRec)) : Option (List String) :=
  if backend = StorageBackend.LOCAL then
    some ((images.getD []).map save_upload)
  else if backend = StorageBackend.S3 then
    some ((images.getD []).map s3_upload)
  else
    none

/-- `create_listing`: verification check, storage dispatch, row construction
with derived search vector, then the listing-created notification.  `newId`
stands for the primary key the database assigns on insert. -/
def create_listing (backend : StorageBackend)
    (save_upload s3_upload : UploadFileRec → String) (user : UserRec)
    (title description category : String) (price : Rat)
    (images : Option (List UploadFileRec)) (newId : Nat) :
    Except HTTPError (ListingRec × List NotificationEvent) :=
  if user.is_verified = false then
    Except.error (HTTPError.mk 403 "User must be verified")
  else
    match uploadUrls backend save_upload s3_upload images with
    | none => Except.error (HTTPError.mk 500 "Invalid storage backend")
    | some urls =>
      let obj : ListingRec :=
        ListingRec.mk newId user.id title description category price urls "ACTIVE"
          (to_tsvector "english" (title ++ " " ++ description ++ " " ++ category))
      Except.ok (obj, [NotificationEvent.listing_created newId user.id])

/-- A `ListingUpdate` payload.  Pydantic's
`model_dump(exclude_unset=True, exclude_none=True)` removes both fields
never supplied and fields supplied as `None`, so `none` models either. -/
structure ListingUpdate where
  title : Option String
  description : Option String
  category : Option String
  price : Option Rat
  images : Option (List String)
deriving DecidableEq, Repr

/-- The `title` branch of the filter loop:
kept when the value and its strip are truthy, stored stripped. -/
def filtered_title (v : Option String) : Option String :=
  match v with
  | none => none
  | some s => if s ≠ "" ∧ pyStrip s ≠ "" then some (pyStrip s) else none

/-- The `description` branch of the filter loop, identical in form. -/
def filtered_description (v : Option String) : Option String :=
  match v with
  | none => none
  | some s => if s ≠ "" ∧ pyStrip s ≠ "" then some (pyStrip s) else none

/-- The `category` branch of the filter loop, identical in form. -/
def filtered_category (v : Option String) : Option String :=
  match v with
  | none => none
  | some s => if s ≠ "" ∧ pyStrip s ≠ "" then some (pyStrip s) else none

/-- The `price` branch: kept only when strictly positive. -/
def filtered_price (v : Option Rat) : Option Rat :=
  match v with
  | none => none
  | some q => if q > 0 then some q else none

/-- The `images` branch: any value that survived `exclude_none` is kept
(the guard in the source is only `value is not None`). -/
def filtered_images (v : Option (List String)) : Option (List String) :=
  match v with
  | none => none
  | some l => some l

/-- The `filtered_update_data` dictionary of `update_listing`. -/
structure FilteredUpdate where
  title : Option String
  description : Option String
  category : Option String
  price : Option Rat
  images : Option (List String)
deriving DecidableEq, Repr

def filtered_update_data (p : ListingUpdate) : FilteredUpdate :=
  FilteredUpdate.mk (filtered_title p.title) (filtered_description p.description)
    (filtered_category p.category) (filtered_price p.price) (filtered_images p.images)

/-- Whether the filtered dictionary is empty
(the `if filtered_update_data:` truthiness test). -/
def FilteredUpdate.isEmpty (f : FilteredUpdate) : Bool :=
  f.title.isNone && f.description.isNone && f.category.isNone
    && f.price.isNone && f.images.isNone

/-- Whether any of the three text fields is present
(the `any(field in filtered_update_data for field in [...])` test). -/
def FilteredUpdate.hasTextField (f : FilteredUpdate) : Bool :=
  f.title.isSome || f.description.isSome || f.category.isSome

/-- The `setattr` loop: each field present in the filtered dictionary
replaces the stored one, every other column keeps its value. -/
def apply_update (obj : ListingRec) (f : FilteredUpdate) : ListingRec :=
  { obj with
    title := f.title.getD obj.title,
    description := f.description.getD obj.description,
    category := f.category.getD obj.category,
    price := f.price.getD obj.price,
    images := f.images.getD obj.images }

/-- The search-vector recomputation performed when a text field was applied. -/
def refreshSearchVector (obj : ListingRec) (f : FilteredUpdate) : ListingRec :=
  if f.hasTextField then
    { obj with search_vector :=
        to_tsvector "english" (obj.title ++ " " ++ obj.description ++ " " ++ obj.category) }
  else obj

/-- `update_listing`: lookup, ownership and verification checks, filtered
update, conditional search-vector refresh, conditional notification. -/
def update_listing (db : List ListingRec) (user : UserRec) (listing_id : Nat)
    (payload : ListingUpdate) :
    Except HTTPError (ListingRec × List NotificationEvent) :=
  match db.find? (fun l => l.id == listing_id) with
  | none => Except.error (HTTPError.mk 404 "Listing not found")
  | some obj =>
    if obj.owner_id ≠ user.id then
      Except.error (HTTPError.mk 403 "Not owner")
    else if user.is_verified = false then
      Except.error (HTTPError.mk 403 "User must be verified")
    else
      let f := filtered_update_data payload
      let obj2 := refreshSearchVector (apply_update obj f) f
      Except.ok (obj2,
        if f.isEmpty then [] else [NotificationEvent.listing_updated obj2.id user.id])

/-- `patch_status`: lookup, ownership check, status validation, then the
write.  Returns the updated table alongside the updated record. -/
def patch_status (db : List ListingRec) (user : UserRec) (listing_id : Nat)
    (payload_status : String) :
    Except HTTPError (List ListingRec × ListingRec) :=
  match db.find? (fun l => l.id == listing_id) with
  | none => Except.error (HTTPError.mk 404 "Listing not found")
  | some obj =>
    if obj.owner_id ≠ user.id then
      Except.error (HTTPError.mk 403 "Not owner")
    else if payload_status ∉ listingStatuses then
      Except.error (HTTPError.mk 422 "Invalid status")
    else
      Except.ok
        (db.map (fun l => if l.id == listing_id then { obj with status := payload_status } else l),
         { obj with status := payload_status })

/-- `delete_listing`: lookup, ownership and verification checks, then the
row removal. -/
def delete_listing (db : List ListingRec) (user : UserRec) (listing_id : Nat) :
    Except HTTPError (List ListingRec) :=
  match db.find? (fun l => l.id == listing_id) with
  | none => Except.error (HTTPError.mk 404 "Listing not found")
  | some obj =>
    if obj.owner_id ≠ user.id then
      Except.error (HTTPError.mk 403 "Not owner")
    else if user.is_verified = false then
      Except.error (HTTPError.mk 403 "User must be verified")
    else
      Except.ok (db.filter (fun l => l.id != listing_id))

/-! ## Concrete instances used by witnesses and counterexamples -/

def demoUsers : List UserRow :=
  [UserRow.mk 1 "alice@uni.edu", UserRow.mk 2 "bob@college.edu"]

def demoOwner : UserRec := UserRec.mk "alice" true

def demoUnverifiedOwner : UserRec := UserRec.mk "bob" false

def demoListing : ListingRec :=
  ListingRec.mk 1 "alice" "Bike" "A road bike" "vehicles" 120 ["u1"] "ACTIVE"
    (to_tsvector "english" "Bike A road bike vehicles")

def demoDb : List ListingRec := [demoListing]

def demoListingOfBob : ListingRec :=
  ListingRec.mk 2 "bob" "Desk" "A small desk" "furniture" 40 [] "ACTIVE"
    (to_tsvector "english" "Desk A small desk furniture")

def demoDbOfBob : List ListingRec := [demoListingOfBob]

/-- A payload whose every field the filter skips. -/
def demoEmptyPayload : ListingUpdate :=
  ListingUpdate.mk (some "   ") none (some "") (some 0) none

/-- A payload that applies a new title only. -/
def demoTitlePayload : ListingUpdate :=
  ListingUpdate.mk (some "Car") none none none none

/-- The record `create_listing` builds for the concrete witness request. -/
def demoCreatedListing : ListingRec :=
  ListingRec.mk 7 "alice" "Book" "Used book" "books" 5 [] "ACTIVE"
    (to_tsvector "english" "Book Used book books")

/-- The record `update_listing` produces for `demoTitlePayload` on `demoDb`:
the title is replaced and the search vector recomputed. -/
def demoUpdatedListing : ListingRec :=
  ListingRec.mk 1 "alice" "Car" "A road bike" "vehicles" 120 ["u1"] "ACTIVE"
    (to_tsvector "english" "Car A road bike vehicles")

/-! ## Theorems -/

/-- With pairwise-distinct ids (the primary-key invariant of `users`), the
correlated subquery's `find?` returns exactly the referenced row. -/
theorem find_user_by_id (us : List UserRow) (i : Int) (u : UserRow)
    (hpk : us.Pairwise (fun a b => a.id ≠ b.id)) (hmem : u ∈ us) (hid : u.id = i) :
    us.find? (fun v => v.id == i) = some u := by
  induction us with
  | nil => cases hmem
  | cons a tl ih =>
    rw [List.pairwise_cons] at hpk
    rcases List.mem_cons.mp hmem with h | h
    · subst h
      simp [List.find?_cons, hid]
    · have hne : ¬ (a.id = i) := fun hEq => hpk.1 u h (hEq.trans hid.symm)
      have hb : (a.id == i) = false := by simp [hne]
      simp only [List.find?_cons, hb]
      exact ih hpk.2 h

/-- The three-step rewrite of `users` amounts to mapping each row to its
email-derived key. -/
theorem upgradeUsers_eq_map (us : List UserRow) :
    upgradeUsers us = us.map (fun u => NewUserRow.mk (splitPart1 u.email) u.email) := by
  induction us with
  | nil => rfl
  | cons a tl ih =>
    simp [upgradeUsers, usersAddNewIdColumn, usersBackfillNewId, usersSwapIdColumn]

/-- Claim C1: the re-keying migration's upgrade replaces the integer key of
`users` with the part of `email` before the first at sign
(`SPLIT_PART(email, '@', 1)`), and backfills every referencing cell with the
email-derived key of the user row its old integer value pointed to. -/
theorem rekey_data_C1 (us : List UserRow)
    (hpk : us.Pairwise (fun a b => a.id ≠ b.id)) :
    upgradeUsers us = us.map (fun u => NewUserRow.mk (splitPart1 u.email) u.email)
    ∧ ∀ (b : Bool) (i : Int) (u : UserRow), u ∈ us → u.id = i →
        backfillFkCell us b (some i) = some (splitPart1 u.email) := by
  refine ⟨upgradeUsers_eq_map us, ?_⟩
  intro b i u hmem hid
  have hf := find_user_by_id us i u hpk hmem hid
  cases b <;> simp [backfillFkCell, lookupNewId, hf]

/-- Witness for C1 on a two-row `users` table. -/
theorem rekey_data_C1_witness :
    demoUsers.Pairwise (fun a b => a.id ≠ b.id)
    ∧ backfillFkCell demoUsers false (some 2) = some (splitPart1 "bob@college.edu") := by
  refine ⟨by decide, ?_⟩
  exact (rekey_data_C1 demoUsers (by decide)).2 false 2 (UserRow.mk 2 "bob@college.edu")
    (by decide) rfl

/-- Claim C2 (violated by the code): before the re-keying migration the
notifications and verifications foreign keys carry `ON DELETE CASCADE`
(installed by the two cascade-delete migrations); after its upgrade both are
recreated as plain foreign keys, while the blocked-users and
message-reactions constraints do keep their cascade flag. -/
theorem cascade_lost_C2 :
    (fksBeforeRekey.lookup "notifications_user_id_fkey").map FkInfo.cascade = some true
    ∧ (fksBeforeRekey.lookup "verifications_user_id_fkey").map FkInfo.cascade = some true
    ∧ (fksAfterRekey.lookup "notifications_user_id_fkey").map FkInfo.cascade = some false
    ∧ (fksAfterRekey.lookup "verifications_user_id_fkey").map FkInfo.cascade = some false
    ∧ (fksAfterRekey.lookup "blocked_users_user_id_fkey").map FkInfo.cascade = some true
    ∧ (fksAfterRekey.lookup "message_reactions_user_id_fkey").map FkInfo.cascade = some true := by
  decide

/-- Claim C3 (violated by the code): the downgrade touches only the `users`
table — it recreates no foreign key and alters none of the seventeen
referencing columns changed by the upgrade — and it recreates the id index
non-unique although the upgrade created it unique. -/
theorem downgrade_incomplete_C3 :
    downgradeOps.all (fun op => (opTables op).all (fun t => t = "users")) = true
    ∧ downgradeOps.all (fun op => !(isCreateFkOp op)) = true
    ∧ MigOp.createIndex "ix_users_id" "users" "id" false ∈ downgradeOps
    ∧ MigOp.createIndex "ix_users_id" "users" "id" true ∈ upgradeOps
    ∧ MigOp.dropColumn "listings" "owner_id" ∈ upgradeOps
    ∧ MigOp.addColumn "listings" "new_owner_id" ColTy.strTy true ∈ upgradeOps
    ∧ (upgradeOps.filter isCreateFkOp).length = 17 := by
  decide

/-- Claim C4 counterexample: for the column `blocked_users.user_id`, the
backfill of the derived column occurs exactly once and strictly before the
(single) drop of its foreign-key constraint, so the constraint drop does not
precede the backfill. -/
theorem upgrade_order_C4_cex :
    upgradeOps.count (MigOp.backfillFk "blocked_users" "user_id" false) = 1
    ∧ upgradeOps.count (MigOp.dropFkConstraint "blocked_users_user_id_fkey" "blocked_users") = 1
    ∧ opIndex (MigOp.backfillFk "blocked_users" "user_id" false) <
        opIndex (MigOp.dropFkConstraint "blocked_users_user_id_fkey" "blocked_users") := by
  decide

set_option maxRecDepth 4000 in
/-- Claim C4 (amended): the upgrade backfills each derived column first,
then drops that column's foreign-key constraint; the primary-key swap
follows all backfills; and the foreign-key recreations form the final block
of the migration. -/
theorem upgrade_order_C4 :
    (tables_with_user_fks.all (fun p =>
        backfillIdxOfPair p < dropIdxOfName (fkName p.1 p.2)
        && dropIdxOfName (fkName p.1 p.2) < upgradeOps.length)) = true
    ∧ (tables_with_user_fks.all (fun p =>
        backfillIdxOfPair p < opIndex (MigOp.dropPkConstraint "users_pkey" "users"))) = true
    ∧ opIndex MigOp.backfillUsersNewId < opIndex (MigOp.dropPkConstraint "users_pkey" "users")
    ∧ opIndex (MigOp.dropPkConstraint "users_pkey" "users") < upgradeOps.length
    ∧ (upgradeOps.drop (upgradeOps.findIdx isCreateFkOp)).all isCreateFkOp = true
    ∧ upgradeOps.findIdx isCreateFkOp < upgradeOps.length := by
  decide

set_option maxRecDepth 4000 in
/-- Claim C5: the upgrade drops and recreates foreign keys on exactly the
seventeen listed `(table, column)` pairs — the recreated pairs are the
listed ones in order, each dropped name is recreated later, every recreated
key references `users.id`, and no pair is added or lost. -/
theorem fk_coverage_C5 :
    createdFkPairs = tables_with_user_fks
    ∧ droppedFkNameTables = tables_with_user_fks.map (fun p => (fkName p.1 p.2, p.1))
    ∧ createdFkNames = tables_with_user_fks.map (fun p => fkName p.1 p.2)
    ∧ createdFkTargets.all (fun t => t = ("users", "id")) = true
    ∧ tables_with_user_fks.length = 17
    ∧ tables_with_user_fks.Nodup
    ∧ (tables_with_user_fks.all (fun p =>
        dropIdxOfName (fkName p.1 p.2) < createIdxOfName (fkName p.1 p.2)
        && createIdxOfName (fkName p.1 p.2) < upgradeOps.length)) = true := by
  decide

/-- Claim C6: `patch_status` answers 404 when no listing has the given id,
403 when the listing exists but the requester is not its owner, 422 when the
listing exists, the requester owns it, and the requested status is not one
of ACTIVE, SOLD, ARCHIVED, and otherwise stores the requested status and
returns the updated record. -/
theorem patch_status_C6 (db : List ListingRec) (user : UserRec) (lid : Nat) (s : String) :
    (db.find? (fun l => l.id == lid) = none →
      patch_status db user lid s = Except.error (HTTPError.mk 404 "Listing not found"))
    ∧ (∀ obj : ListingRec, db.find? (fun l => l.id == lid) = some obj →
        obj.owner_id ≠ user.id →
        patch_status db user lid s = Except.error (HTTPError.mk 403 "Not owner"))
    ∧ (∀ obj : ListingRec, db.find? (fun l => l.id == lid) = some obj →
        obj.owner_id = user.id → s ∉ listingStatuses →
        patch_status db user lid s = Except.error (HTTPError.mk 422 "Invalid status"))
    ∧ (∀ obj : ListingRec, db.find? (fun l => l.id == lid) = some obj →
        obj.owner_id = user.id → s ∈ listingStatuses →
        patch_status db user lid s = Except.ok
          (db.map (fun l => if l.id == lid then { obj with status := s } else l),
           { obj with status := s })) := by
  refine ⟨?_, ?_, ?_, ?_⟩
  · intro h
    simp [patch_status, h]
  · intro obj hf hne
    simp [patch_status, hf, hne]
  · intro obj hf hown hns
    simp [patch_status, hf, hown, hns]
  · intro obj hf hown hs
    simp [patch_status, hf, hown, hs]

/-- Witness for C6: the owner marks the demo listing sold. -/
theorem patch_status_C6_witness :
    demoDb.find? (fun l => l.id == 1) = some demoListing
    ∧ demoListing.owner_id = demoOwner.id
    ∧ "SOLD" ∈ listingStatuses
    ∧ patch_status demoDb demoOwner 1 "SOLD" =
        Except.ok
          ([ListingRec.mk 1 "alice" "Bike" "A road bike" "vehicles" 120 ["u1"] "SOLD"
              (to_tsvector "english" "Bike A road bike vehicles")],
           ListingRec.mk 1 "alice" "Bike" "A road bike" "vehicles" 120 ["u1"] "SOLD"
             (to_tsvector "english" "Bike A road bike vehicles")) := by
  refine ⟨by decide, by decide, by decide, ?_⟩
  have h := (patch_status_C6 demoDb demoOwner 1 "SOLD").2.2.2 demoListing
    (by decide) (by decide) (by decide)
  exact h.trans (by rfl)

/-- Claim C7: every successful `create_listing` emits exactly the
listing-created notification for the new record, and a successful
`update_listing` emits the listing-updated notification precisely when its
filtered update applied at least one field. -/
theorem listing_notifications_C7 (backend : StorageBackend)
    (su s3u : UploadFileRec → String) (user : UserRec)
    (t d c : String) (pr : Rat) (imgs : Option (List UploadFileRec)) (nid : Nat)
    (db : List ListingRec) (lid : Nat) (p : ListingUpdate) :
    (∀ (obj : ListingRec) (evs : List NotificationEvent),
        create_listing backend su s3u user t d c pr imgs nid = Except.ok (obj, evs) →
        evs = [NotificationEvent.listing_created obj.id user.id])
    ∧ (∀ (obj2 : ListingRec) (evs : List NotificationEvent),
        update_listing db user lid p = Except.ok (obj2, evs) →
        ((filtered_update_data p).isEmpty = false ↔
            evs = [NotificationEvent.listing_updated obj2.id user.id])
        ∧ ((filtered_update_data p).isEmpty = true ↔ evs = [])) := by
  constructor
  · intro obj evs h
    by_cases hv : user.is_verified = false
    · simp [create_listing, hv] at h
    · cases backend <;>
        simp [create_listing, hv, uploadUrls] at h <;>
        rcases h with ⟨h1, h2⟩ <;>
        simp [← h1, ← h2]
  · intro obj2 evs h
    unfold update_listing at h
    cases hf : db.find? (fun l => l.id == lid) with
    | none => rw [hf] at h; cases h
    | some obj =>
      rw [hf] at h
      by_cases hown : obj.owner_id = user.id
      · by_cases hv : user.is_verified = false
        · simp [hown, hv] at h
        · simp [hown, hv] at h
          rcases h with ⟨h1, h2⟩
          by_cases he : (filtered_update_data p).isEmpty
          · simp [he] at h2
            simp [he, ← h2]
          · simp [he] at h2
            simp [he, ← h1, ← h2]
      · simp [hown] at h

/-- Witness for C7: a concrete successful creation emits exactly the
listing-created notification for the new record. -/
theorem listing_notifications_C7_witness :
    create_listing StorageBackend.LOCAL (fun f => f.filename) (fun f => f.filename)
        demoOwner "Book" "Used book" "books" 5 none 7
      = Except.ok (demoCreatedListing, [NotificationEvent.listing_created 7 "alice"])
    ∧ [NotificationEvent.listing_created 7 "alice"]
        = [NotificationEvent.listing_created demoCreatedListing.id demoOwner.id] := by
  refine ⟨by decide, ?_⟩
  exact (listing_notifications_C7 StorageBackend.LOCAL (fun f => f.filename)
      (fun f => f.filename) demoOwner "Book" "Used book" "books" 5 none 7
      demoDb 1 demoTitlePayload).1 demoCreatedListing
    [NotificationEvent.listing_created 7 "alice"] (by decide)

/-- Claim C8 counterexample: the payload that applies only a new title
leaves the derived `search_vector` column outside the filtered update, yet
the returned record's `search_vector` differs from its previous value, so
not every field outside the applied update keeps its value. -/
theorem update_frame_C8_cex :
    update_listing demoDb demoOwner 1 demoTitlePayload =
      Except.ok (demoUpdatedListing, [NotificationEvent.listing_updated 1 "alice"])
    ∧ filtered_update_data demoTitlePayload =
        FilteredUpdate.mk (some "Car") none none none none
    ∧ demoUpdatedListing.search_vector ≠ demoListing.search_vector := by
  decide

/-- Field-level reading of the applied update: every stored column equals
either the filtered value or the previous one, and the search vector is
untouched when no text field was applied. -/
theorem refresh_apply_fields (obj : ListingRec) (f : FilteredUpdate) :
    (refreshSearchVector (apply_update obj f) f).id = obj.id
    ∧ (refreshSearchVector (apply_update obj f) f).owner_id = obj.owner_id
    ∧ (refreshSearchVector (apply_update obj f) f).status = obj.status
    ∧ (refreshSearchVector (apply_update obj f) f).title = f.title.getD obj.title
    ∧ (refreshSearchVector (apply_update obj f) f).description = f.description.getD obj.description
    ∧ (refreshSearchVector (apply_update obj f) f).category = f.category.getD obj.category
    ∧ (refreshSearchVector (apply_update obj f) f).price = f.price.getD obj.price
    ∧ (refreshSearchVector (apply_update obj f) f).images = f.images.getD obj.images
    ∧ (f.hasTextField = false →
        (refreshSearchVector (apply_update obj f) f).search_vector = obj.search_vector) := by
  unfold refreshSearchVector apply_update
  by_cases ht : f.hasTextField
  · simp [ht]
  · simp [ht]

/-- Claim C8 (amended): the filter of `update_listing` skips a text field
that is unset, empty, or whitespace-only, a price that is unset or not
strictly positive, and an unset or `None` images value; on success every
stored column outside the applied update keeps its value — except the
derived `search_vector`, which is recomputed whenever a text field was
applied. -/
theorem update_frame_C8 (db : List ListingRec) (user : UserRec) (lid : Nat)
    (p : ListingUpdate) (s : String) (q : Rat) (obj obj2 : ListingRec)
    (evs : List NotificationEvent) :
    (filtered_title none = none ∧ (pyStrip s = "" → filtered_title (some s) = none))
    ∧ (filtered_description none = none ∧ (pyStrip s = "" → filtered_description (some s) = none))
    ∧ (filtered_category none = none ∧ (pyStrip s = "" → filtered_category (some s) = none))
    ∧ (filtered_price none = none ∧ (q ≤ 0 → filtered_price (some q) = none))
    ∧ filtered_images none = none
    ∧ (update_listing db user lid p = Except.ok (obj2, evs) →
        db.find? (fun l => l.id == lid) = some obj →
        obj2 = refreshSearchVector (apply_update obj (filtered_update_data p))
            (filtered_update_data p)
        ∧ obj2.id = obj.id ∧ obj2.owner_id = obj.owner_id ∧ obj2.status = obj.status
        ∧ ((filtered_update_data p).title = none → obj2.title = obj.title)
        ∧ ((filtered_update_data p).description = none → obj2.description = obj.description)
        ∧ ((filtered_update_data p).category = none → obj2.category = obj.category)
        ∧ ((filtered_update_data p).price = none → obj2.price = obj.price)
        ∧ ((filtered_update_data p).images = none → obj2.images = obj.images)
        ∧ ((filtered_update_data p).hasTextField = false →
            obj2.search_vector = obj.search_vector)) := by
  refine ⟨⟨rfl, ?_⟩, ⟨rfl, ?_⟩, ⟨rfl, ?_⟩, ⟨rfl, ?_⟩, rfl, ?_⟩
  · intro hs
    simp [filtered_title, hs]
  · intro hs
    simp [filtered_description, hs]
  · intro hs
    simp [filtered_category, hs]
  · intro hq
    simp [filtered_price, not_lt.mpr hq]
  · intro h hf
    unfold update_listing at h
    rw [hf] at h
    by_cases hown : obj.owner_id = user.id
    · by_cases hv : user.is_verified = false
      · simp [hown, hv] at h
      · simp [hown, hv] at h
        rcases h with ⟨h1, h2⟩
        subst h1
        have hfs := refresh_apply_fields obj (filtered_update_data p)
        refine ⟨rfl, hfs.1, hfs.2.1, hfs.2.2.1, ?_, ?_, ?_, ?_, ?_,
          hfs.2.2.2.2.2.2.2.2⟩
        · intro hn
          rw [hfs.2.2.2.1, hn]
          rfl
        · intro hn
          rw [hfs.2.2.2.2.1, hn]
          rfl
        · intro hn
          rw [hfs.2.2.2.2.2.1, hn]
          rfl
        · intro hn
          rw [hfs.2.2.2.2.2.2.1, hn]
          rfl
        · intro hn
          rw [hfs.2.2.2.2.2.2.2.1, hn]
          rfl
    · simp [hown] at h

/-- Witness for C8: the all-skipped payload leaves the demo listing exactly
as it was. -/
theorem update_frame_C8_witness :
    pyStrip "   " = ""
    ∧ (-2 : Rat) ≤ 0
    ∧ update_listing demoDb demoOwner 1 demoEmptyPayload = Except.ok (demoListing, [])
    ∧ demoDb.find? (fun l => l.id == 1) = some demoListing
    ∧ demoListing.title = demoListing.title
    ∧ demoListing.search_vector = demoListing.search_vector := by
  refine ⟨by decide, by decide, by decide, by decide, ?_, ?_⟩
  · exact ((update_frame_C8 demoDb demoOwner 1 demoEmptyPayload "   " (-2)
      demoListing demoListing []).2.2.2.2.2 (by decide) (by decide)).2.2.2.2.1 (by decide)
  · exact ((update_frame_C8 demoDb demoOwner 1 demoEmptyPayload "   " (-2)
      demoListing demoListing []).2.2.2.2.2 (by decide) (by decide)).2.2.2.2.2.2.2.2.2 (by decide)

/-- Claim C9: an unverified user is refused by `create_listing`,
`update_listing` and `delete_listing` with 403, yet `patch_status` never
consults verification — the same unverified owner can still set any valid
status on an existing listing of theirs. -/
theorem verification_gap_C9 (backend : StorageBackend)
    (su s3u : UploadFileRec → String) (user : UserRec)
    (t d c : String) (pr : Rat) (imgs : Option (List UploadFileRec)) (nid : Nat)
    (db : List ListingRec) (lid : Nat) (p : ListingUpdate) (obj : ListingRec) (s : String)
    (hv : user.is_verified = false) :
    create_listing backend su s3u user t d c pr imgs nid =
      Except.error (HTTPError.mk 403 "User must be verified")
    ∧ (db.find? (fun l => l.id == lid) = some obj → obj.owner_id = user.id →
        update_listing db user lid p = Except.error (HTTPError.mk 403 "User must be verified")
        ∧ delete_listing db user lid = Except.error (HTTPError.mk 403 "User must be verified")
        ∧ (s ∈ listingStatuses →
            patch_status db user lid s = Except.ok
              (db.map (fun l => if l.id == lid then { obj with status := s } else l),
               { obj with status := s }))) := by
  refine ⟨by simp [create_listing, hv], ?_⟩
  intro hf hown
  refine ⟨?_, ?_, ?_⟩
  · simp [update_listing, hf, hown, hv]
  · simp [delete_listing, hf, hown, hv]
  · intro hs
    simp [patch_status, hf, hown, hs]

/-- Witness for C9: the unverified owner of the demo listing is refused an
update but allowed a status change. -/
theorem verification_gap_C9_witness :
    demoUnverifiedOwner.is_verified = false
    ∧ demoDbOfBob.find? (fun l => l.id == 2) = some demoListingOfBob
    ∧ demoListingOfBob.owner_id = demoUnverifiedOwner.id
    ∧ "SOLD" ∈ listingStatuses
    ∧ update_listing demoDbOfBob demoUnverifiedOwner 2 demoTitlePayload =
        Except.error (HTTPError.mk 403 "User must be verified")
    ∧ delete_listing demoDbOfBob demoUnverifiedOwner 2 =
        Except.error (HTTPError.mk 403 "User must be verified")
    ∧ patch_status demoDbOfBob demoUnverifiedOwner 2 "SOLD" =
        Except.ok
          ([ListingRec.mk 2 "bob" "Desk" "A small desk" "furniture" 40 [] "SOLD"
              (to_tsvector "english" "Desk A small desk furniture")],
           ListingRec.mk 2 "bob" "Desk" "A small desk" "furniture" 40 [] "SOLD"
             (to_tsvector "english" "Desk A small desk furniture")) := by
  have h := verification_gap_C9 StorageBackend.LOCAL (fun f => f.filename)
    (fun f => f.filename) demoUnverifiedOwner "T" "D" "C" 1 none 9
    demoDbOfBob 2 demoTitlePayload demoListingOfBob "SOLD" (by decide)
  have h2 := h.2 (by decide) (by decide)
  exact ⟨by decide, by decide, by decide, by decide, h2.1, h2.2.1,
    (h2.2.2 (by decide)).trans (by rfl)⟩

/-- Claim C10: because `settings.STORAGE_BACKEND` has exactly the two
values of its literal type, the storage dispatch of `create_listing` always
produces a URL list, and the only error the endpoint can return is the 403
verification failure — the 500 invalid-storage branch is unreachable. -/
theorem storage_backend_C10 (backend : StorageBackend)
    (su s3u : UploadFileRec → String) (user : UserRec)
    (t d c : String) (pr : Rat) (imgs : Option (List UploadFileRec)) (nid : Nat) :
    (uploadUrls backend su s3u imgs).isSome = true
    ∧ ∀ e : HTTPError,
        create_listing backend su s3u user t d c pr imgs nid = Except.error e →
        e = HTTPError.mk 403 "User must be verified" := by
  constructor
  · cases backend <;> simp [uploadUrls]
  · intro e h
    by_cases hv : user.is_verified = false
    · simp [create_listing, hv] at h
      exact h.symm
    · cases backend <;> simp [create_listing, hv, uploadUrls] at h

/-- Witness for C10: on the S3 path with an unverified user the endpoint's
only error is the 403. -/
theorem storage_backend_C10_witness :
    (uploadUrls StorageBackend.S3 (fun f => f.filename) (fun f => f.filename)
        (some [UploadFileRec.mk "a.png"])).isSome = true
    ∧ HTTPError.mk 403 "User must be verified" = HTTPError.mk 403 "User must be verified" := by
  have h := storage_backend_C10 StorageBackend.S3 (fun f => f.filename) (fun f => f.filename)
    demoUnverifiedOwner "T" "D" "C" 1 (some [UploadFileRec.mk "a.png"]) 3
  exact ⟨h.1, h.2 (HTTPError.mk 403 "User must be verified") (by decide)⟩
